import Mathlib

/-!
A shallow embedding of the named-websocket broadcast hub (socket.go) and
proofs of the specified properties of connection admission, removal,
broadcast relay with proxy-loop prevention, the dispatch loop, the write
pump, and the fixed protocol constants.

Go channels are modelled as explicit FIFO queues with a capacity and a
closed flag; Go pointers that may be nil are modelled as `Option`;
dereferencing a nil pointer is modelled as `Except.error`.  Writes to a
peer stream are modelled as emitted `WriteEvent`s.  Time durations are
counted in seconds (the source uses `n * time.Second` throughout).
-/

namespace NamedWebSockets

/- Gorilla websocket message-type constants used by socket.go. -/
namespace websocket

def TextMessage : Nat := 1

def CloseMessage : Nat := 8

def PingMessage : Nat := 9

end websocket

/-- Protocol constant: time allowed to write a message to the peer (seconds). -/
def writeWait : Nat := 10

/-- Protocol constant: time allowed to read the next pong message from the peer (seconds). -/
def pongWait : Nat := 60

/-- Protocol constant: the ping period, `(pongWait * 9) / 10` in the source. -/
def pingPeriod : Nat := (pongWait * 9) / 10

/-- Protocol constant: maximum message size allowed from a peer. -/
def maxMessageSize : Nat := 1024

/-- A websocket connection: the underlying stream handle (the `ws` pointer,
modelled by a numeric identifier; the source compares connections by this
pointer) and the proxy flag fixed at admission. -/
structure Connection where
  ws : Nat
  isProxy : Bool
deriving DecidableEq, Repr

/-- A message envelope: originating connection plus payload
(payload bytes modelled as a string, as they are opaque to the hub). -/
structure WSMessage where
  source : Connection
  payload : String
deriving DecidableEq, Repr

/-- A buffered Go channel of `*WSMessage`: capacity, FIFO queue, closed flag. -/
structure MsgBuffer where
  capacity : Nat
  queue : List WSMessage
  closed : Bool
deriving DecidableEq, Repr

/-- Enqueue on a buffered channel (a send appends to the FIFO queue; a send
on a full channel blocks, which is modelled at the step level, not here). -/
def enqueue (b : MsgBuffer) (m : WSMessage) : MsgBuffer :=
  { b with queue := b.queue ++ [m] }

/-- A receive `v, ok := <-ch` as a state inspection: a queued message yields
`(some m, true)`; a closed drained channel yields the zero value and `false`,
i.e. `(none, false)` where `none` is the nil `*WSMessage`; an open empty
channel blocks (`none`: no receive step is possible). -/
def chanRecv (b : MsgBuffer) : Option (Option WSMessage × Bool) :=
  match b.queue with
  | m :: _ => some (some m, true)
  | [] => if b.closed then some (none, false) else none

/-- The `NamedWebSocket` state: service name, ordered connection set, the two
buffered channels, and the (external) DNS-SD discovery client registration. -/
structure NamedWebSocket where
  serviceName : String
  connections : List Connection
  broadcastBuffer : MsgBuffer
  controlBuffer : MsgBuffer
  discoveryClient : Option String
deriving DecidableEq, Repr

/-- `advertise`: if no discovery client is attached yet, attach one for the
service name (`NewDiscoveryClient` is an external collaborator; only the
registration it represents is modelled). -/
def advertise (sock : NamedWebSocket) : NamedWebSocket :=
  match sock.discoveryClient with
  | none => { sock with discoveryClient := some sock.serviceName }
  | some _ => sock

/-- `NewNamedWebSocket`: fresh instance with an empty connection set and two
open buffered channels of capacity 512; in broadcast mode it advertises. -/
def NewNamedWebSocket (serviceName : String) (isBroadcast : Bool) : NamedWebSocket :=
  let sock : NamedWebSocket :=
    { serviceName := serviceName
      connections := []
      broadcastBuffer := { capacity := 512, queue := [], closed := false }
      controlBuffer := { capacity := 512, queue := [], closed := false }
      discoveryClient := none }
  if isBroadcast then advertise sock else sock

/-- A write to one peer stream, as recorded by `sock.write` (which sets a
write deadline of `writeWait` and discards the result of `WriteMessage`). -/
structure WriteEvent where
  target : Connection
  messageType : Nat
  payload : String
deriving DecidableEq, Repr

/-- `sock.write(conn, mt, payload)`: emits a single write event; the
underlying `WriteMessage` error is discarded by the source. -/
def write (conn : Connection) (mt : Nat) (payload : String) : WriteEvent :=
  { target := conn, messageType := mt, payload := payload }

/-- The sentinel payload of a connect control message. -/
def connectPayload : String := "____connect"

/-- The sentinel payload of a disconnect control message. -/
def disconnectPayload : String := "____disconnect"

/-- `broadcast`: relay a message to every connection in the set except the
source (compared by the `ws` handle), skipping proxy recipients when the
source is itself a proxy (loop prevention). -/
def broadcast (conns : List Connection) (m : WSMessage) : List WriteEvent :=
  match conns with
  | [] => []
  | conn :: rest =>
    if conn.ws != m.source.ws then
      if conn.isProxy && m.source.isProxy then
        broadcast rest m
      else
        write conn websocket.TextMessage m.payload :: broadcast rest m
    else
      broadcast rest m

/-- The notification loop of `addConnection`: for each existing connection,
if the newcomer is non-proxy, or the newcomer is a proxy and the existing
connection is not, write a connect sentinel to the newcomer. -/
def notifyExisting (conns : List Connection) (conn : Connection) : List WriteEvent :=
  match conns with
  | [] => []
  | oConn :: rest =>
    if !conn.isProxy || (conn.isProxy && !oConn.isProxy) then
      write conn websocket.TextMessage connectPayload :: notifyExisting rest conn
    else
      notifyExisting rest conn

/-- `addConnection`: notify the newcomer of qualifying existing connections,
enqueue a connect control message when the newcomer is non-proxy, then append
the newcomer to the connection set.  Returns the new state and the write
events sent to the newcomer. -/
def addConnection (sock : NamedWebSocket) (conn : Connection) :
    NamedWebSocket × List WriteEvent :=
  let events := notifyExisting sock.connections conn
  let sock :=
    if !conn.isProxy then
      { sock with controlBuffer := enqueue sock.controlBuffer ⟨conn, connectPayload⟩ }
    else sock
  ({ sock with connections := sock.connections ++ [conn] }, events)

/-- The removal loop of `removeConnection`: drop the first connection with a
matching `ws` handle (the source breaks out of the loop after one removal). -/
def removeFirst (conns : List Connection) (conn : Connection) : List Connection :=
  match conns with
  | [] => []
  | oConn :: rest =>
    if oConn.ws == conn.ws then rest else oConn :: removeFirst rest conn

/-- `removeConnection`: remove the first matching connection from the set,
then — unconditionally on whether it was found — enqueue a disconnect control
message when the connection is non-proxy. -/
def removeConnection (sock : NamedWebSocket) (conn : Connection) : NamedWebSocket :=
  let sock := { sock with connections := removeFirst sock.connections conn }
  if !conn.isProxy then
    { sock with controlBuffer := enqueue sock.controlBuffer ⟨conn, disconnectPayload⟩ }
  else sock

/-- An admission request: the HTTP method, the value of the
`X-BroadcastWebSocket-Proxy` header (empty when absent), and the outcome of
the websocket upgrade handshake (`some ws` on success). -/
structure Request where
  method : String
  proxyHeader : String
  upgrade : Option Nat
deriving DecidableEq, Repr

/-- The outcome of `serve`. -/
inductive ServeResult where
  | httpError (msg : String) (code : Nat)
  | upgradeFailed
  | admitted (conn : Connection)
deriving DecidableEq, Repr

/-- `serve`: reject non-GET with a 405 client error; on a failed upgrade
handshake, log and return; otherwise wrap the stream into a `Connection`
with the proxy flag taken from the header value `"true"` and admit it. -/
def serve (sock : NamedWebSocket) (r : Request) : NamedWebSocket × ServeResult :=
  if r.method != "GET" then
    (sock, .httpError "Method not allowed" 405)
  else
    match r.upgrade with
    | none => (sock, .upgradeFailed)
    | some ws =>
      let conn : Connection := { ws := ws, isProxy := r.proxyHeader == "true" }
      ((addConnection sock conn).1, .admitted conn)

/-- What one `select` arm of `messageDispatcher` does with a received pair
`(msg, ok)`: on `ok` it broadcasts the message and the loop continues; on
`!ok` it evaluates `msg.source` — a dereference of the received pointer,
which is nil when the channel was closed and drained (`Except.error`) — and
would write a close frame to it and return. -/
inductive DispatchResult where
  | next (events : List WriteEvent)
  | stop (closeEvent : WriteEvent)
deriving DecidableEq, Repr

/-- One dispatch of a received `(msg, ok)` pair by `messageDispatcher`. -/
def dispatchReceived (conns : List Connection) :
    Option WSMessage × Bool → Except Unit DispatchResult
  | (some m, true) => .ok (.next (broadcast conns m))
  | (none, true) => .error ()
  | (some m, false) => .ok (.stop (write m.source websocket.CloseMessage ""))
  | (none, false) => .error ()

/-- A run of `writeConnectionPump`'s for/select loop for `fuel` ticks:
each tick performs `sock.write(conn, PingMessage, [])`.  `probeFails` says
whether the probe write at each tick fails; `sock.write` discards that
error, and the loop body has no break or return, so every iteration
continues.  Returns the (unchanged) socket state and the emitted pings. -/
def writeConnectionPumpRun (sock : NamedWebSocket) (conn : Connection)
    (probeFails : Nat → Bool) : Nat → NamedWebSocket × List WriteEvent
  | 0 => (sock, [])
  | n + 1 =>
    let prev := writeConnectionPumpRun sock conn probeFails n
    let _ := probeFails n
    (prev.1, prev.2 ++ [write conn websocket.PingMessage ""])

/-- The operations of the program that touch a channel's shared state:
an admission request, a connection removal (pump teardown), a read pump
enqueuing an inbound frame, and the dispatcher consuming either buffer. -/
inductive Op where
  | serveReq (r : Request)
  | removeConn (c : Connection)
  | readFrame (c : Connection) (payload : String)
  | dispatchControl
  | dispatchBroadcast
deriving Repr

/-- The state transition of each operation (a dispatcher receive on an open
empty buffer, and a send on a full buffer, block: no state change). -/
def step (sock : NamedWebSocket) : Op → NamedWebSocket
  | .serveReq r => (serve sock r).1
  | .removeConn c => removeConnection sock c
  | .readFrame c payload =>
    if sock.broadcastBuffer.queue.length < sock.broadcastBuffer.capacity then
      { sock with broadcastBuffer := enqueue sock.broadcastBuffer ⟨c, payload⟩ }
    else sock
  | .dispatchControl =>
    match sock.controlBuffer.queue with
    | _ :: rest =>
      { sock with controlBuffer := { sock.controlBuffer with queue := rest } }
    | [] => sock
  | .dispatchBroadcast =>
    match sock.broadcastBuffer.queue with
    | _ :: rest =>
      { sock with broadcastBuffer := { sock.broadcastBuffer with queue := rest } }
    | [] => sock

/-- The states a named websocket can reach from creation under the
program's operations. -/
inductive Reachable : NamedWebSocket → Prop where
  | init (name : String) (isBroadcast : Bool) :
      Reachable (NewNamedWebSocket name isBroadcast)
  | step {s : NamedWebSocket} (op : Op) : Reachable s → Reachable (step s op)

/-- Dropping the first `ws`-match leaves the list unchanged exactly when no
connection with that `ws` handle is present. -/
lemma removeFirst_eq_self_iff (conns : List Connection) (conn : Connection) :
    removeFirst conns conn = conns ↔ conn.ws ∉ conns.map Connection.ws := by
  induction conns with
  | nil => simp [removeFirst]
  | cons oConn rest ih =>
    by_cases hws : oConn.ws = conn.ws
    · simp only [removeFirst, hws, beq_self_eq_true, if_true, List.map_cons,
        List.mem_cons]
      constructor
      · intro h; exact absurd h.symm (List.cons_ne_self oConn rest)
      · intro h; exact absurd (Or.inl trivial) h
    · have hbeq : (oConn.ws == conn.ws) = false := by simp [hws]
      simp only [removeFirst, hbeq, Bool.false_eq_true, if_false, List.cons.injEq,
        true_and, List.map_cons, List.mem_cons, ih]
      constructor
      · rintro hnot (hc | hm)
        · exact hws hc.symm
        · exact hnot hm
      · intro hnot hm; exact hnot (Or.inr hm)

/-- C1 (amended): removal of the connection from the connection set is
idempotent — the set is unchanged exactly when the connection is absent —
but for a non-proxy connection every call unconditionally enqueues one
disconnect control message, so calling removal twice enqueues two
disconnect messages; a proxy connection's removal enqueues none. -/
theorem removeConnection_amended (sock : NamedWebSocket) (conn : Connection) :
    (removeConnection sock conn).connections = removeFirst sock.connections conn ∧
    (removeFirst sock.connections conn = sock.connections ↔
      conn.ws ∉ sock.connections.map Connection.ws) ∧
    (removeConnection sock conn).controlBuffer.queue =
      sock.controlBuffer.queue ++
        (if conn.isProxy then [] else [⟨conn, disconnectPayload⟩]) ∧
    (removeConnection (removeConnection sock conn) conn).controlBuffer.queue.length =
      sock.controlBuffer.queue.length + (if conn.isProxy then 0 else 2) := by
  refine ⟨?_, removeFirst_eq_self_iff sock.connections conn, ?_, ?_⟩ <;>
    cases hp : conn.isProxy <;> simp [removeConnection, enqueue, hp]

/-- C1 (counterexample): removing the sole non-proxy connection twice leaves
two disconnect messages on the control buffer, not one; and removing an
absent non-proxy connection is not a no-op — it still enqueues a disconnect
message. -/
theorem removeConnection_not_idempotent :
    (removeConnection (removeConnection
        ⟨"chat", [⟨0, false⟩], ⟨512, [], false⟩, ⟨512, [], false⟩, none⟩
        ⟨0, false⟩) ⟨0, false⟩).controlBuffer.queue.length ≠ 1 ∧
    removeConnection
        ⟨"chat", [], ⟨512, [], false⟩, ⟨512, [], false⟩, none⟩ ⟨0, false⟩ ≠
      ⟨"chat", [], ⟨512, [], false⟩, ⟨512, [], false⟩, none⟩ := by
  decide

/-- C9: the fixed protocol constants — read deadline 60, ping period 9/10 of
the read deadline (54), write deadline 10, maximum inbound frame size 1024,
and both message buffers created with capacity 512. -/
theorem protocol_constants (name : String) (isBroadcast : Bool) :
    writeWait = 10 ∧ pongWait = 60 ∧ pingPeriod = pongWait * 9 / 10 ∧
    pingPeriod = 54 ∧ maxMessageSize = 1024 ∧
    (NewNamedWebSocket name isBroadcast).broadcastBuffer.capacity = 512 ∧
    (NewNamedWebSocket name isBroadcast).controlBuffer.capacity = 512 := by
  refine ⟨rfl, rfl, rfl, rfl, rfl, ?_, ?_⟩ <;>
    cases isBroadcast <;> rfl

/-- C8: a request whose method is not GET is rejected with the 405 client
error, no connection object is created, and the channel state is returned
unchanged. -/
theorem serve_rejects_non_get (sock : NamedWebSocket) (r : Request)
    (h : r.method ≠ "GET") :
    serve sock r = (sock, .httpError "Method not allowed" 405) := by
  simp [serve, h]

/-- Witness for `serve_rejects_non_get` at a concrete non-GET request. -/
theorem serve_rejects_non_get_witness :
    ("POST" : String) ≠ "GET" ∧
    serve (NewNamedWebSocket "chat" false) ⟨"POST", "", none⟩ =
      (NewNamedWebSocket "chat" false, .httpError "Method not allowed" 405) :=
  ⟨by decide, serve_rejects_non_get (NewNamedWebSocket "chat" false)
    ⟨"POST", "", none⟩ (by decide)⟩

/-- C4: `broadcast` delivers the message to a connection exactly when that
connection is in the set, is distinct from the source (by stream handle),
and the pair is not proxy-to-proxy: proxy-sourced messages are never relayed
to proxy recipients, and every other source/recipient combination distinct
from the source is delivered. -/
theorem broadcast_delivery_iff (conns : List Connection) (m : WSMessage)
    (c : Connection) :
    write c websocket.TextMessage m.payload ∈ broadcast conns m ↔
      c ∈ conns ∧ c.ws ≠ m.source.ws ∧
        ¬(c.isProxy = true ∧ m.source.isProxy = true) := by
  induction conns with
  | nil => simp [broadcast]
  | cons conn rest ih =>
    by_cases hws : conn.ws = m.source.ws
    · simp only [broadcast, hws, bne_self_eq_false, Bool.false_eq_true, if_false,
        ih, List.mem_cons]
      constructor
      · rintro ⟨hr, h2, h3⟩; exact ⟨Or.inr hr, h2, h3⟩
      · rintro ⟨hc | hr, h2, h3⟩
        · subst hc; exact absurd hws h2
        · exact ⟨hr, h2, h3⟩
    · have hbne : (conn.ws != m.source.ws) = true := by simp [hws]
      by_cases hp : (conn.isProxy && m.source.isProxy) = true
      · simp only [broadcast, hbne, if_true, hp, ih, List.mem_cons]
        rw [Bool.and_eq_true] at hp
        constructor
        · rintro ⟨hr, h2, h3⟩; exact ⟨Or.inr hr, h2, h3⟩
        · rintro ⟨hc | hr, h2, h3⟩
          · subst hc; exact absurd ⟨hp.1, hp.2⟩ h3
          · exact ⟨hr, h2, h3⟩
      · simp only [Bool.not_eq_true] at hp
        simp only [broadcast, hbne, if_true, hp, Bool.false_eq_true, if_false,
          List.mem_cons, ih]
        have hwc : (write c websocket.TextMessage m.payload =
            write conn websocket.TextMessage m.payload) ↔ c = conn := by
          simp [write]
        rw [hwc, Bool.and_eq_false_iff] at *
        constructor
        · rintro (hc | ⟨hr, h2, h3⟩)
          · subst hc
            refine ⟨Or.inl rfl, hws, ?_⟩
            rintro ⟨hcp, hsp⟩
            rcases hp with hp | hp <;> simp [hp] at hcp hsp
          · exact ⟨Or.inr hr, h2, h3⟩
        · rintro ⟨hc | hr, h2, h3⟩
          · exact Or.inl hc
          · exact Or.inr ⟨hr, h2, h3⟩

/-- C5: no self-delivery — every write event produced by `broadcast` targets
a connection whose stream handle differs from the source's, so a message is
never delivered back to its own source connection. -/
theorem broadcast_no_self_delivery (conns : List Connection) (m : WSMessage)
    (e : WriteEvent) (h : e ∈ broadcast conns m) : e.target.ws ≠ m.source.ws := by
  induction conns with
  | nil => simp [broadcast] at h
  | cons conn rest ih =>
    by_cases hws : conn.ws = m.source.ws
    · simp only [broadcast, hws, bne_self_eq_false, Bool.false_eq_true,
        if_false] at h
      exact ih h
    · have hbne : (conn.ws != m.source.ws) = true := by simp [hws]
      by_cases hp : (conn.isProxy && m.source.isProxy) = true
      · simp only [broadcast, hbne, if_true, hp] at h
        exact ih h
      · simp only [broadcast, hbne, if_true, Bool.not_eq_true] at hp
        simp only [broadcast, hbne, if_true, hp, Bool.false_eq_true, if_false,
          List.mem_cons] at h
        rcases h with h | h
        · subst h; exact hws
        · exact ih h

/-- Witness for `broadcast_no_self_delivery` at a concrete two-party channel. -/
theorem broadcast_no_self_delivery_witness :
    (⟨⟨1, false⟩, websocket.TextMessage, "hi"⟩ : WriteEvent) ∈
      broadcast [⟨1, false⟩] ⟨⟨0, false⟩, "hi"⟩ ∧
    (⟨⟨1, false⟩, websocket.TextMessage, "hi"⟩ : WriteEvent).target.ws ≠
      (⟨⟨0, false⟩, "hi"⟩ : WSMessage).source.ws :=
  ⟨by decide, broadcast_no_self_delivery [⟨1, false⟩] ⟨⟨0, false⟩, "hi"⟩
    ⟨⟨1, false⟩, websocket.TextMessage, "hi"⟩ (by decide)⟩

/-- The notification loop of `addConnection` sends the newcomer one connect
sentinel per qualifying pre-existing connection. -/
lemma notifyExisting_eq_filter_map (conns : List Connection) (conn : Connection) :
    notifyExisting conns conn =
      (conns.filter fun o => !conn.isProxy || (conn.isProxy && !o.isProxy)).map
        (fun _ => write conn websocket.TextMessage connectPayload) := by
  induction conns with
  | nil => simp [notifyExisting]
  | cons oConn rest ih =>
    by_cases hv : (!conn.isProxy || (conn.isProxy && !oConn.isProxy)) = true
    · simp [notifyExisting, hv, List.filter_cons, ih]
    · simp only [Bool.not_eq_true] at hv
      simp [notifyExisting, hv, List.filter_cons, ih]

/-- C6: admission visibility — a newly admitted proxy connection is sent
connect notifications only for the pre-existing non-proxy connections, while
a newly admitted non-proxy connection is sent one for every pre-existing
connection, proxy and non-proxy alike. -/
theorem addConnection_visibility (sock : NamedWebSocket) (conn : Connection) :
    (addConnection sock conn).2 =
      (sock.connections.filter fun o =>
          !conn.isProxy || (conn.isProxy && !o.isProxy)).map
        (fun _ => write conn websocket.TextMessage connectPayload) ∧
    (addConnection sock conn).2.length =
      if conn.isProxy then
        (sock.connections.filter fun o => !o.isProxy).length
      else
        sock.connections.length := by
  constructor
  · exact notifyExisting_eq_filter_map sock.connections conn
  · rw [show (addConnection sock conn).2 = notifyExisting sock.connections conn
      from rfl]
    rw [notifyExisting_eq_filter_map sock.connections conn, List.length_map]
    cases hp : conn.isProxy <;> simp [hp]

/-- C7: admission computes the connect notifications against the
pre-admission connection set and only then appends the newcomer, so a
newcomer with a fresh stream handle is never among the connections it is
notified about — it never receives a connect notification about itself. -/
theorem addConnection_pre_admission (sock : NamedWebSocket) (conn : Connection)
    (h : conn.ws ∉ sock.connections.map Connection.ws) :
    (addConnection sock conn).1.connections = sock.connections ++ [conn] ∧
    (addConnection sock conn).2 = notifyExisting sock.connections conn ∧
    ∀ o ∈ sock.connections.filter
        (fun o => !conn.isProxy || (conn.isProxy && !o.isProxy)),
      o.ws ≠ conn.ws := by
  refine ⟨?_, rfl, ?_⟩
  · cases hp : conn.isProxy <;> simp [addConnection, hp]
  · intro o ho hws
    apply h
    rw [← hws]
    exact List.mem_map_of_mem Connection.ws (List.mem_of_mem_filter ho)

/-- Witness for `addConnection_pre_admission` at a concrete admission. -/
theorem addConnection_pre_admission_witness :
    ((⟨2, false⟩ : Connection).ws ∉
      ([⟨1, false⟩] : List Connection).map Connection.ws) ∧
    ((addConnection ⟨"chat", [⟨1, false⟩], ⟨512, [], false⟩, ⟨512, [], false⟩,
        none⟩ ⟨2, false⟩).1.connections = [⟨1, false⟩] ++ [⟨2, false⟩] ∧
     (addConnection ⟨"chat", [⟨1, false⟩], ⟨512, [], false⟩, ⟨512, [], false⟩,
        none⟩ ⟨2, false⟩).2 = notifyExisting [⟨1, false⟩] ⟨2, false⟩ ∧
     ∀ o ∈ ([⟨1, false⟩] : List Connection).filter
         (fun o => !(⟨2, false⟩ : Connection).isProxy ||
           ((⟨2, false⟩ : Connection).isProxy && !o.isProxy)),
       o.ws ≠ (⟨2, false⟩ : Connection).ws) :=
  ⟨by decide, addConnection_pre_admission
    ⟨"chat", [⟨1, false⟩], ⟨512, [], false⟩, ⟨512, [], false⟩, none⟩
    ⟨2, false⟩ (by decide)⟩

/-- C2 (code bug): receiving from a closed, drained buffer yields the nil
zero value with `ok = false`, and the dispatcher shutdown branch then
dereferences that nil message (`wsConnect.source`), faulting instead of
completing the close-frame write. -/
theorem messageDispatcher_shutdown_faults :
    chanRecv ⟨512, [], true⟩ = some (none, false) ∧
    dispatchReceived [] (none, false) = Except.error () :=
  ⟨rfl, rfl⟩

/-- C3 (code bug): the write pump's loop discards every probe-write result
and has no exit path, so however many ticks elapse and whatever probe writes
fail, the socket state is untouched (the deferred ticker stop, stream close
and connection removal never run) and the pump only ever emits ping writes. -/
theorem writeConnectionPump_never_exits (sock : NamedWebSocket)
    (conn : Connection) (probeFails : Nat → Bool) (fuel : Nat) :
    (writeConnectionPumpRun sock conn probeFails fuel).1 = sock ∧
    (writeConnectionPumpRun sock conn probeFails fuel).2.length = fuel ∧
    ∀ e ∈ (writeConnectionPumpRun sock conn probeFails fuel).2,
      e = write conn websocket.PingMessage "" := by
  induction fuel with
  | zero => exact ⟨rfl, rfl, by simp [writeConnectionPumpRun]⟩
  | succ n ih =>
    obtain ⟨h1, h2, h3⟩ := ih
    refine ⟨h1, ?_, ?_⟩
    · simp [writeConnectionPumpRun, h2]
    · intro e he
      simp [writeConnectionPumpRun] at he
      rcases he with he | he
      · exact h3 e he
      · simp [he]

/-- No operation of the program changes either buffer's closed flag. -/
lemma step_preserves_open (s : NamedWebSocket) (op : Op) :
    (step s op).controlBuffer.closed = s.controlBuffer.closed ∧
    (step s op).broadcastBuffer.closed = s.broadcastBuffer.closed := by
  cases op with
  | serveReq r =>
    by_cases hm : (r.method != "GET") = true
    · simp [step, serve, hm]
    · simp only [Bool.not_eq_true] at hm
      cases hu : r.upgrade with
      | none => simp [step, serve, hm, hu]
      | some ws =>
        by_cases hp : (r.proxyHeader == "true") = true <;>
          simp [step, serve, hm, hu, hp, addConnection, enqueue]
  | removeConn c =>
    cases hp : c.isProxy <;> simp [step, removeConnection, enqueue, hp]
  | readFrame c payload =>
    by_cases hf : s.broadcastBuffer.queue.length < s.broadcastBuffer.capacity <;>
      simp [step, enqueue, hf]
  | dispatchControl =>
    cases hq : s.controlBuffer.queue <;> simp [step, hq]
  | dispatchBroadcast =>
    cases hq : s.broadcastBuffer.queue <;> simp [step, hq]

/-- A freshly created named websocket has both buffers open. -/
lemma init_buffers_open (name : String) (isBroadcast : Bool) :
    (NewNamedWebSocket name isBroadcast).controlBuffer.closed = false ∧
    (NewNamedWebSocket name isBroadcast).broadcastBuffer.closed = false := by
  cases isBroadcast <;> exact ⟨rfl, rfl⟩

/-- A receive from an open buffer never yields the closed-channel result
`(nil, false)`. -/
lemma chanRecv_open (b : MsgBuffer) (h : b.closed = false) :
    chanRecv b ≠ some (none, false) := by
  cases hq : b.queue with
  | nil => simp [chanRecv, hq, h]
  | cons m t => simp [chanRecv, hq]

/-- C10: no operation of the program ever closes the broadcast buffer or the
control buffer, so in every reachable state a dispatcher receive never
returns the closed-channel result and the shutdown branch of
`messageDispatcher` is never taken — the channel never reaches its terminal
state. -/
theorem buffers_never_close (s : NamedWebSocket) (h : Reachable s) :
    s.controlBuffer.closed = false ∧ s.broadcastBuffer.closed = false ∧
    chanRecv s.controlBuffer ≠ some (none, false) ∧
    chanRecv s.broadcastBuffer ≠ some (none, false) := by
  induction h with
  | init name isBroadcast =>
    obtain ⟨hc, hb⟩ := init_buffers_open name isBroadcast
    exact ⟨hc, hb, chanRecv_open _ hc, chanRecv_open _ hb⟩
  | step op hr ih =>
    rename_i s'
    have hc : (step s' op).controlBuffer.closed = false :=
      (step_preserves_open s' op).1.trans ih.1
    have hb : (step s' op).broadcastBuffer.closed = false :=
      (step_preserves_open s' op).2.trans ih.2.1
    exact ⟨hc, hb, chanRecv_open _ hc, chanRecv_open _ hb⟩

/-- Witness for `buffers_never_close` at the freshly created channel. -/
theorem buffers_never_close_witness :
    Reachable (NewNamedWebSocket "chat" false) ∧
    ((NewNamedWebSocket "chat" false).controlBuffer.closed = false ∧
     (NewNamedWebSocket "chat" false).broadcastBuffer.closed = false ∧
     chanRecv (NewNamedWebSocket "chat" false).controlBuffer ≠
       some (none, false) ∧
     chanRecv (NewNamedWebSocket "chat" false).broadcastBuffer ≠
       some (none, false)) :=
  ⟨Reachable.init "chat" false,
    buffers_never_close (NewNamedWebSocket "chat" false)
      (Reachable.init "chat" false)⟩

end NamedWebSockets
